import Mathlib

/-!
Verification development for the CMS upload dashboard
(source files: app.py and cms_utils.py).

The Python code is shallowly embedded: pure computations become Lean
functions, filesystem effects become explicit state passing over an
association-list file system, HTTP calls and the external ffmpeg process
become oracle parameters (their outcomes are inputs of the embedded
functions), and exceptions become Except / Option results.  Python
truthiness and Python subscript semantics are modelled explicitly where
the source relies on them.
-/

namespace CMS

/-- Model of a parsed JSON value, as returned by resp.json() in Python.
Numbers are modelled as integers (no claim depends on float values). -/
inductive Json where
  | null : Json
  | bool : Bool → Json
  | num : Int → Json
  | str : String → Json
  | arr : List Json → Json
  | obj : List (String × Json) → Json

/-- Python truthiness of a parsed JSON value: None, False, 0, empty
string, empty list and empty dict are falsy; everything else is truthy. -/
def Json.truthy : Json → Bool
  | .null => false
  | .bool b => b
  | .num n => n != 0
  | .str s => !s.data.isEmpty
  | .arr l => !l.isEmpty
  | .obj l => !l.isEmpty

/-- Python subscript v[0] on a parsed JSON value, inside a try block:
indexing a non-empty list yields its first element, indexing a non-empty
string yields its first character as a one-character string, and every
other case raises (IndexError for empty list and empty string, KeyError
for a dict, whose parsed keys are strings, TypeError otherwise). -/
def pyIndex0 : Json → Except Unit Json
  | .arr (x :: _) => .ok x
  | .arr [] => .error ()
  | .str s =>
      match s.data with
      | c :: _ => .ok (.str (String.mk [c]))
      | [] => .error ()
  | _ => .error ()

/-- Dict key lookup on a parsed JSON object field list (first binding
wins, as a parsed Python dict has no duplicate keys). -/
def jLookup (k : String) (fields : List (String × Json)) : Option Json :=
  List.lookup k fields

/-- Response normalization of upload_asset (cms_utils.py lines 125-133),
applied to the parsed 2xx body.  Mirrors the Python control flow: when
the body is a dict containing the key assets with a truthy value,
return the subscript 0 of that value; else when the body is a list of
positive length, return its first element; else when the body is a dict
containing the key _id, return the dict itself; else return None.  A
raise inside the try block (for example from the subscript) is caught
and yields None. -/
def upload_asset_normalize (result : Json) : Option Json :=
  match result with
  | .obj fields =>
      match jLookup "assets" fields with
      | some v =>
          if v.truthy then (pyIndex0 v).toOption
          else if (jLookup "_id" fields).isSome then some (.obj fields)
          else none
      | none =>
          if (jLookup "_id" fields).isSome then some (.obj fields)
          else none
  | .arr (x :: _) => some x
  | _ => none

/-- Full upload_asset (cms_utils.py lines 101-136): the HTTP POST,
raise_for_status and body parse are one oracle whose failure models any
network error, timeout, non-2xx status or undecodable body; every raise
is caught by the blanket except and mapped to None. -/
def upload_asset (httpResult : Except Unit Json) : Option Json :=
  match httpResult with
  | .error _ => none
  | .ok body => upload_asset_normalize body

/-- Normalization as claim C3 words it: first element of a non-empty
assets list, first element of a non-empty array body, the object itself
when it contains an _id key, and null for every other shape. -/
def claimC3Normalize (result : Json) : Option Json :=
  match result with
  | .obj fields =>
      match jLookup "assets" fields with
      | some (.arr (x :: _)) => some x
      | _ =>
          if (jLookup "_id" fields).isSome then some (.obj fields)
          else none
  | .arr (x :: _) => some x
  | _ => none

/-! ## Image processing (cms_utils.process_image) -/

/-- An in-memory decoded image, abstracted to the data the geometric
transforms act on: pixel dimensions and channel count (the channel count
stands for the PIL mode, for example 4 for RGBA, 3 for RGB, 1 for L). -/
structure PImage where
  width : Nat
  height : Nat
  channels : Nat
  deriving DecidableEq

/-- Rounding of m / 2 for a natural m under Python round-half-to-even
(bankers rounding).  In process_image the crop box coordinates are
Python floats (w - s) / 2 and so on; PIL Image.crop converts the box
with int(round(coordinate)), and Python round sends k + 0.5 to k when k
is even and to k + 1 when k is odd.  Every coordinate here is a
nonnegative integer or half-integer, so this function captures it. -/
def pyRoundHalfDiv (m : Nat) : Nat :=
  if m % 2 == 0 then m / 2
  else if (m / 2) % 2 == 0 then m / 2 else m / 2 + 1

/-- The crop box (left, top, right, bottom) computed by the square
branch of process_image for a width x height input, after PIL box
rounding: left = (width - s) / 2, top = (height - s) / 2,
right = (width + s) / 2, bottom = (height + s) / 2 with
s = min width height, each rounded half-to-even. -/
def squareCropBox (width height : Nat) : Nat × Nat × Nat × Nat :=
  let s := min width height
  (pyRoundHalfDiv (width - s), pyRoundHalfDiv (height - s),
   pyRoundHalfDiv (width + s), pyRoundHalfDiv (height + s))

/-- PIL Image.crop with an already rounded integer box: the result has
width right - left and height bottom - top, same channels. -/
def cropImg (img : PImage) (box : Nat × Nat × Nat × Nat) : PImage :=
  { width := box.2.2.1 - box.1, height := box.2.2.2 - box.2.1,
    channels := img.channels }

/-- PIL Image.resize to an exact target size (the LANCZOS filter only
affects pixel values, which this embedding abstracts away). -/
def resizeImg (img : PImage) (w h : Nat) : PImage :=
  { width := w, height := h, channels := img.channels }

/-- An encoded output file produced by PIL save: pixel dimensions,
channel count, container format and encoder quality setting. -/
structure EncodedImage where
  width : Nat
  height : Nat
  channels : Nat
  format : String
  quality : Nat
  deriving DecidableEq

/-- process_image (cms_utils.py lines 8-51).  The decode step
Image.open(BytesIO(file_bytes)) is the oracle argument: none models a
raise (undecodable bytes), caught by the blanket except and mapped to
None.  mode square center-crops with the PIL-rounded box then resizes
to 800 x 800; every other mode force-resizes to 1280 x 720; both paths
convert to RGB (3 channels) and save as JPEG at quality 60. -/
def process_image (decoded : Option PImage) (mode : String) :
    Option EncodedImage :=
  match decoded with
  | none => none
  | some img =>
      let resized :=
        if mode = "square" then
          resizeImg (cropImg img (squareCropBox img.width img.height)) 800 800
        else
          resizeImg img 1280 720
      some { width := resized.width, height := resized.height,
             channels := 3, format := "JPEG", quality := 60 }

/-! ## Audio processing (cms_utils.process_audio) -/

/-- A flat file system, name to byte content, for the temp-file staging
done by process_audio.  Bytes are modelled as lists of naturals. -/
structure FSys where
  files : List (String × List Nat)

/-- Write (create or overwrite) a file, as open(name, wb) + write. -/
def FSys.write (fs : FSys) (name : String) (bytes : List Nat) : FSys :=
  ⟨(name, bytes) :: fs.files.filter (fun p => p.1 != name)⟩

/-- Read a file: none models open(name, rb) raising FileNotFoundError. -/
def FSys.read (fs : FSys) (name : String) : Option (List Nat) :=
  List.lookup name fs.files

/-- os.remove: deletes the file when present.  In process_audio the two
removes sit in a try block whose except swallows everything, so a
missing file (or any other cleanup failure) leaves state unchanged and
is never surfaced. -/
def FSys.remove (fs : FSys) (name : String) : FSys :=
  ⟨fs.files.filter (fun p => p.1 != name)⟩

/-- Index of the last occurrence of a character, Python str.rfind minus
the -1 convention (none for absent). -/
def rfindIdx (c : Char) (l : List Char) : Option Nat :=
  match l.reverse.findIdx? (· == c) with
  | some i => some (l.length - 1 - i)
  | none => none

/-- original_filename.split(chr 46)[-1]: the segment after the last dot,
the whole string when there is no dot, empty when the name ends in a
dot. -/
def afterLastDot (l : List Char) : List Char :=
  match rfindIdx '.' l with
  | some i => l.drop (i + 1)
  | none => l

/-- Extension inference of process_audio line 60: last dot-separated
segment of the original filename, lowercased character by character
(Python str.lower). -/
def extOfFilename (name : String) : String :=
  String.mk ((afterLastDot name.data).map Char.toLower)

/-- The temp input path built on line 61 from the first time() call. -/
def tempInName (t1 : Nat) (original_filename : String) : String :=
  "temp_audio_in_" ++ toString t1 ++ "." ++ extOfFilename original_filename

/-- The temp output path built on line 62 from the second time() call. -/
def tempOutName (t2 : Nat) : String :=
  "temp_audio_out_" ++ toString t2 ++ ".mp3"

/-- process_audio (cms_utils.py lines 53-99) as a state-passing function
over the file system.  t1 and t2 are the two int(time.time()) samples.
The external ffmpeg run is an oracle: ok out means exit status 0 with
out as the bytes of the produced temp output file; error models a
non-zero exit, raising subprocess.CalledProcessError, which the except
clause maps to None — note that this return path does not reach the
cleanup code, so the already written temp input file stays on disk.
On success the output is read back and only then are both temp files
removed (remove failures would be swallowed; see FSys.remove). -/
def process_audio (fs : FSys) (file_bytes : List Nat)
    (original_filename : String) (channels : Nat) (t1 t2 : Nat)
    (ffmpegRun : Except Unit (List Nat)) : Option (List Nat) × FSys :=
  let temp_in := tempInName t1 original_filename
  let temp_out := tempOutName t2
  let fs1 := fs.write temp_in file_bytes
  match ffmpegRun with
  | .error _ => (none, fs1)
  | .ok outBytes =>
      let fs2 := fs1.write temp_out outBytes
      match fs2.read temp_out with
      | none => (none, fs2)
      | some processed =>
          ((some processed), (fs2.remove temp_in).remove temp_out)

/-- create_collection_entry (cms_utils.py lines 138-157): POST plus
raise_for_status plus body parse as one oracle; on 2xx the parsed body
is returned as is, every raise is caught and mapped to None. -/
def create_collection_entry (httpResult : Except Unit Json) : Option Json :=
  match httpResult with
  | .error _ => none
  | .ok body => some body

/-! ## Output filenames (app.py steps 1) -/

/-- Stem part of os.path.splitext (posixpath): split before the last dot
provided that dot comes after the last slash and at least one character
strictly between the last slash and that dot is not a dot (so dotfiles
such as .bashrc keep their dot). -/
def pySplitextStem (l : List Char) : List Char :=
  let sepIdx : Int := match rfindIdx '/' l with | some i => (i : Int) | none => -1
  let dotIdx : Int := match rfindIdx '.' l with | some i => (i : Int) | none => -1
  if sepIdx < dotIdx then
    if (List.range l.length).any (fun j =>
        decide (sepIdx < (j : Int)) && decide ((j : Int) < dotIdx) &&
        !(l.getD j '.' == '.')) then
      l.take dotIdx.toNat
    else l
  else l

/-- Python str.replace for a non-empty pattern: leftmost, non-overlapping,
scanning left to right.  Fuel-indexed helper; fuel at least the length
of the subject makes it total. -/
def replaceAux (pat rep : List Char) : Nat → List Char → List Char
  | 0, s => s
  | _ + 1, [] => []
  | fuel + 1, c :: t =>
      if pat.isPrefixOf (c :: t) then
        rep ++ replaceAux pat rep fuel ((c :: t).drop pat.length)
      else c :: replaceAux pat rep fuel t

/-- Python (s.replace pat rep) for non-empty pat. -/
def pyReplace (pat rep s : List Char) : List Char :=
  replaceAux pat rep s.length s

/-- Image output name (app.py lines 67-68): stem + .jpg, and in square
mode every occurrence of .jpg in that string is replaced by _sq.jpg. -/
def imgOutputName (orig mode : String) : String :=
  let newName := pySplitextStem orig.data ++ (".jpg").data
  if mode = "square" then
    String.mk (pyReplace (".jpg").data ("_sq.jpg").data newName)
  else String.mk newName

/-- Audio output name (app.py line 129): stem + .mp3. -/
def audioOutputName (orig : String) : String :=
  String.mk (pySplitextStem orig.data ++ (".mp3").data)

/-! ## Batch workflow state (app.py tabs) -/

/-- One processed pending item, name plus processed bytes. -/
structure Item where
  name : String
  bytes : List Nat
  deriving DecidableEq

/-- Python truthiness of the per-item processing result: None and the
empty byte string are both falsy. -/
def pyTruthyBytes : Option (List Nat) → Bool
  | none => false
  | some b => !b.isEmpty

/-- Python truthiness of an upload or publish result: None is falsy, a
returned JSON value is as truthy as the value itself. -/
def pyTruthyOpt : Option Json → Bool
  | none => false
  | some j => j.truthy

/-- Image tab Step 1 (app.py lines 61-73): process every selected file;
an item enters the pending batch only when the processing result is
truthy (if p_bytes), with the renamed output filename; order of the
input list is kept. -/
def imgStep1 (files : List (String × List Nat)) (mode : String)
    (proc : String × List Nat → Option (List Nat)) : List Item :=
  files.filterMap fun f =>
    match proc f with
    | some b => if b.isEmpty then none else some ⟨imgOutputName f.1 mode, b⟩
    | none => none

/-- Audio tab Step 1 (app.py lines 123-134), same gating (if p_bytes). -/
def audioStep1 (files : List (String × List Nat))
    (proc : String × List Nat → Option (List Nat)) : List Item :=
  files.filterMap fun f =>
    match proc f with
    | some b => if b.isEmpty then none else some ⟨audioOutputName f.1, b⟩
    | none => none

/-- Image tab Step 2 (app.py lines 84-100): on a password match every
pending item is uploaded; the success counter counts truthy results
(if asset); the batch is cleared only when every item succeeded,
otherwise kept whole.  On a mismatch nothing is uploaded and the batch
is untouched.  Returns (attempted uploads, success count, new batch). -/
def imgStep2 (default_password auth_pass : String) (batch : List Item)
    (upload : Item → Option Json) : List Item × Nat × List Item :=
  if auth_pass = default_password then
    let success_count := (batch.filter (fun it => pyTruthyOpt (upload it))).length
    (batch, success_count,
     if success_count = batch.length then [] else batch)
  else ([], 0, batch)

/-- Audio tab Step 2 (app.py lines 145-160): same gate and counting, but
after the upload loop the batch is cleared unconditionally (line 158
runs whether or not every upload succeeded). -/
def audioStep2 (default_password auth_pass : String) (batch : List Item)
    (upload : Item → Option Json) : List Item × Nat × List Item :=
  if auth_pass = default_password then
    let success_count := (batch.filter (fun it => pyTruthyOpt (upload it))).length
    (batch, success_count, [])
  else ([], 0, batch)

/-- The single team-member pending draft (app.py lines 186-195). -/
structure Draft where
  photo_bytes : List Nat
  name : String
  email : String
  role : String
  phone : String
  year : String
  sher : String
  sher_author : String

/-- Team tab Step 2 (app.py lines 206-242): on a password match the
asset upload runs; only when its result is truthy does the entry
publish run; only when that result is truthy too is the pending draft
cleared (set to None).  Every other path leaves the draft in place.
upload and publish are the results the two calls would return. -/
def teamStep2 (default_password auth_pass : String) (draft : Draft)
    (upload : Option Json) (publish : Option Json) : Option Draft :=
  if auth_pass = default_password then
    if pyTruthyOpt upload then
      if pyTruthyOpt publish then none else some draft
    else some draft
  else some draft

/-! ## Claim-side definitions used by corrected claims -/

/-- Normalization as amended claim C3 words it: when the body is an
object whose assets value is truthy, a non-empty list yields its first
element, a non-empty string yields its first character as a
one-character string, and any other truthy assets value yields null
(the subscript raises and is caught); when assets is absent or falsy,
an object containing an _id key yields itself; a non-empty array body
yields its first element; every other body yields null. -/
def amendedC3Normalize (result : Json) : Option Json :=
  match result with
  | .obj fields =>
      match jLookup "assets" fields with
      | some (.arr (x :: _)) => some x
      | some (.str ⟨c :: _⟩) => some (.str (String.mk [c]))
      | some v =>
          if v.truthy then none
          else if (jLookup "_id" fields).isSome then some (.obj fields)
          else none
      | none =>
          if (jLookup "_id" fields).isSome then some (.obj fields)
          else none
  | .arr (x :: _) => some x
  | _ => none

/-- pat occurs in s starting at position i. -/
def occursAt (pat s : List Char) (i : Nat) : Bool :=
  pat.isPrefixOf (s.drop i)

/-- pat occurs in s at some position strictly below n. -/
def occursBefore (pat s : List Char) (n : Nat) : Bool :=
  (List.range n).any (occursAt pat s)

/-! ## Helper lemmas -/

theorem replaceAux_nil (pat rep : List Char) (fuel : Nat) :
    replaceAux pat rep fuel [] = [] := by
  cases fuel <;> rfl

theorem read_write_self (fs : FSys) (n : String) (b : List Nat) :
    (fs.write n b).read n = some b := by
  simp [FSys.write, FSys.read, List.lookup]

theorem lookup_filter_none {β : Type} {n : String} (q : String × β → Bool)
    {l : List (String × β)} (h : List.lookup n l = none) :
    List.lookup n (l.filter q) = none := by
  rw [List.lookup_eq_none_iff] at h ⊢
  intro p hp
  exact h p (List.mem_of_mem_filter hp)

theorem lookup_filter_ne_self {β : Type} (n : String) (l : List (String × β)) :
    List.lookup n (l.filter (fun p => p.1 != n)) = none := by
  rw [List.lookup_eq_none_iff]
  intro p hp
  have h2 : p.1 ≠ n := by simpa using List.of_mem_filter hp
  simpa using Ne.symm h2

theorem read_remove_self (fs : FSys) (n : String) : (fs.remove n).read n = none := by
  simpa [FSys.remove, FSys.read] using lookup_filter_ne_self n fs.files

theorem read_remove_none (fs : FSys) (n m : String) (h : fs.read n = none) :
    (fs.remove m).read n = none := by
  simpa [FSys.remove, FSys.read] using
    lookup_filter_none (fun p => p.1 != m) h

theorem replaceAux_no_occur (pat rep : List Char) (hp : pat ≠ []) :
    ∀ (s : List Char) (fuel : Nat), s.length + 1 ≤ fuel →
      (∀ i, i < s.length → ¬ pat <+: (s ++ pat).drop i) →
      replaceAux pat rep fuel (s ++ pat) = s ++ rep := by
  intro s
  induction s with
  | nil =>
      intro fuel hfuel _
      obtain ⟨f, rfl⟩ : ∃ f, fuel = f + 1 := ⟨fuel - 1, by omega⟩
      obtain ⟨c, t, rfl⟩ : ∃ c t, pat = c :: t := by
        cases pat with
        | nil => exact absurd rfl hp
        | cons c t => exact ⟨c, t, rfl⟩
      simp [replaceAux, List.isPrefixOf_iff_prefix, List.drop_length, replaceAux_nil]
  | cons a s ih =>
      intro fuel hfuel hocc
      obtain ⟨f, rfl⟩ : ∃ f, fuel = f + 1 := ⟨fuel - 1, by omega⟩
      have h0 : ¬ pat <+: a :: (s ++ pat) := by
        simpa using hocc 0 (by simp)
      have hstep : replaceAux pat rep (f + 1) ((a :: s) ++ pat)
          = a :: replaceAux pat rep f (s ++ pat) := by
        simp [replaceAux, List.isPrefixOf_iff_prefix, h0]
      rw [hstep, ih f (by simp at hfuel ⊢; omega)
        (fun i hi => by simpa [List.drop_succ_cons] using hocc (i + 1) (by simpa using hi))]
      simp

theorem pyReplace_no_occur (pat rep s : List Char) (hp : pat ≠ [])
    (hocc : occursBefore pat (s ++ pat) s.length = false) :
    pyReplace pat rep (s ++ pat) = s ++ rep := by
  have h : ∀ i, i < s.length → ¬ pat <+: (s ++ pat).drop i := by
    simp only [occursBefore, List.any_eq_false, List.mem_range, occursAt] at hocc
    intro i hi
    simpa using hocc i hi
  have hfuel : s.length + 1 ≤ (s ++ pat).length := by
    have := List.length_pos.mpr hp
    simp [List.length_append]
    omega
  simpa [pyReplace] using
    replaceAux_no_occur pat rep hp s (s ++ pat).length hfuel h

/-! ## Claims -/

/-- C1: in both generic batch flows (images and audio) the authenticated
upload phase runs if and only if the submitted password string-equals
the configured secret: on a match every pending item is attempted, and
on any other submitted string (empty and case variants included) no
upload is attempted and the pending batch is left unchanged. -/
theorem C1_upload_gate (default_password auth_pass : String)
    (batchI batchA : List Item) (upI upA : Item → Option Json) :
    (auth_pass = default_password →
        (imgStep2 default_password auth_pass batchI upI).1 = batchI ∧
        (audioStep2 default_password auth_pass batchA upA).1 = batchA) ∧
    (auth_pass ≠ default_password →
        imgStep2 default_password auth_pass batchI upI = ([], 0, batchI) ∧
        audioStep2 default_password auth_pass batchA upA = ([], 0, batchA)) := by
  constructor
  · intro h
    simp [imgStep2, audioStep2, h]
  · intro h
    simp [imgStep2, audioStep2, h]

/-- Witness for C1 at concrete inputs: the exact password attempts the
batch, a case variant and the empty string attempt nothing and leave
the batch unchanged. -/
theorem C1_upload_gate_witness :
    (imgStep2 "secret" "secret" [⟨"a.jpg", [1]⟩] (fun _ => none)).1 = [⟨"a.jpg", [1]⟩] ∧
    imgStep2 "secret" "Secret" [⟨"a.jpg", [1]⟩] (fun _ => none) = ([], 0, [⟨"a.jpg", [1]⟩]) ∧
    imgStep2 "secret" "" [⟨"a.jpg", [1]⟩] (fun _ => none) = ([], 0, [⟨"a.jpg", [1]⟩]) :=
  ⟨((C1_upload_gate "secret" "secret" [⟨"a.jpg", [1]⟩] [] (fun _ => none) (fun _ => none)).1 rfl).1,
   ((C1_upload_gate "secret" "Secret" [⟨"a.jpg", [1]⟩] [] (fun _ => none) (fun _ => none)).2 (by decide)).1,
   ((C1_upload_gate "secret" "" [⟨"a.jpg", [1]⟩] [] (fun _ => none) (fun _ => none)).2 (by decide)).1⟩

/-- C2 counterexample: in the audio flow an authenticated pass whose
single upload fails (success count 0) still clears the pending batch,
so the processed item is not retained for a re-attempt, refuting the
claim for the audio generic batch flow. -/
theorem C2_counterexample :
    (audioStep2 "secret" "secret" [⟨"a.mp3", [1, 2]⟩] (fun _ => none)).2.2 = [] ∧
    (audioStep2 "secret" "secret" [⟨"a.mp3", [1, 2]⟩] (fun _ => none)).2.1 = 0 ∧
    ([] : List Item) ≠ [⟨"a.mp3", [1, 2]⟩] := by
  refine ⟨rfl, rfl, ?_⟩
  decide

/-- C2 amended: after an authenticated upload pass with at least one
failed upload, the image flow keeps its pending batch unchanged, while
the audio flow clears its batch unconditionally (app.py line 158 runs
whether or not every upload succeeded). -/
theorem C2_amended_partial_failure (default_password : String)
    (batchI batchA : List Item) (upI upA : Item → Option Json)
    (hfail : ∃ it ∈ batchI, pyTruthyOpt (upI it) = false) :
    (imgStep2 default_password default_password batchI upI).2.2 = batchI ∧
    (audioStep2 default_password default_password batchA upA).2.2 = [] := by
  constructor
  · simp [imgStep2, ite_eq_right_iff]
    intro hall
    obtain ⟨it, hmem, hfalse⟩ := hfail
    rw [hall it hmem] at hfalse
    simp at hfalse
  · simp [audioStep2]

/-- Witness for the amended C2: a one-item image batch whose upload
fails is retained whole. -/
theorem C2_amended_witness :
    (imgStep2 "secret" "secret" [⟨"a.jpg", [1]⟩] (fun _ => none)).2.2 = [⟨"a.jpg", [1]⟩] :=
  (C2_amended_partial_failure "secret" [⟨"a.jpg", [1]⟩] [] (fun _ => none) (fun _ => none)
    ⟨⟨"a.jpg", [1]⟩, by simp, rfl⟩).1

/-- C3 counterexample: the 2xx body consisting of an object whose
assets key holds the non-empty string abc is not one of the three
claimed non-null shapes, so the claim predicts null, but the code
returns the one-character string a (Python subscripting of a non-empty
string), refuting the catch-all null clause of the claim. -/
theorem C3_counterexample :
    upload_asset_normalize (Json.obj [("assets", Json.str "abc")]) = some (Json.str "a") ∧
    claimC3Normalize (Json.obj [("assets", Json.str "abc")]) = none :=
  ⟨rfl, rfl⟩

/-- C3 amended: upload_asset response normalization returns the first
element of a truthy assets list, the first character of a truthy assets
string, null for any other truthy assets value (the subscript raises
and is caught), the object itself when assets is absent or falsy and an
_id key is present, the first element of a non-empty array body, and
null for every other parsed body. -/
theorem C3_amended_normalize (result : Json) :
    upload_asset_normalize result = amendedC3Normalize result := by
  cases result with
  | null => rfl
  | bool b => rfl
  | num n => rfl
  | str s => rfl
  | arr l => cases l <;> rfl
  | obj fields =>
      simp only [upload_asset_normalize, amendedC3Normalize]
      cases h : jLookup "assets" fields with
      | none => rfl
      | some v =>
          cases v with
          | null => rfl
          | bool b => rfl
          | num n => rfl
          | str s =>
              cases s with
              | mk data => cases data <;> rfl
          | arr l => cases l <;> rfl
          | obj l => rfl

theorem pyRoundHalfDiv_even (m : Nat) (hm : m % 2 = 0) :
    pyRoundHalfDiv m = m / 2 := by
  simp [pyRoundHalfDiv, hm]

theorem pyRoundHalfDiv_cases (m : Nat) :
    pyRoundHalfDiv m = m / 2 ∨ pyRoundHalfDiv m = m / 2 + 1 := by
  unfold pyRoundHalfDiv
  split_ifs <;> simp

/-- C4 counterexample: a process_audio call on an empty file system
whose external transcoder run fails returns null, but the written temp
input file is still present afterwards — the cleanup code is not
reached on this exit path, refuting deletion on every exit path. -/
theorem C4_counterexample :
    (process_audio ⟨[]⟩ [1, 2, 3] "a.wav" 1 7 7 (.error ())).1 = none ∧
    ((process_audio ⟨[]⟩ [1, 2, 3] "a.wav" 1 7 7 (.error ())).2).read
      (tempInName 7 "a.wav") = some [1, 2, 3] :=
  ⟨rfl, rfl⟩

/-- C4 amended: the two temp files are deleted (and deletion failures
swallowed) only on the success path, after the transcoder output is
read back; on an external-transcoder failure the function returns null
without reaching the cleanup, leaving the written temp input file on
disk. -/
theorem C4_amended_cleanup (fs : FSys) (b out : List Nat) (fn : String)
    (ch t1 t2 : Nat) :
    (process_audio fs b fn ch t1 t2 (.ok out)).1 = some out ∧
    ((process_audio fs b fn ch t1 t2 (.ok out)).2).read (tempInName t1 fn) = none ∧
    ((process_audio fs b fn ch t1 t2 (.ok out)).2).read (tempOutName t2) = none ∧
    (process_audio fs b fn ch t1 t2 (.error ())).1 = none ∧
    ((process_audio fs b fn ch t1 t2 (.error ())).2).read (tempInName t1 fn) = some b := by
  have hmatch : ((fs.write (tempInName t1 fn) b).write (tempOutName t2) out).read
      (tempOutName t2) = some out := read_write_self _ _ _
  have step1 : process_audio fs b fn ch t1 t2 (.ok out)
      = (match ((fs.write (tempInName t1 fn) b).write (tempOutName t2) out).read
             (tempOutName t2) with
         | none =>
             ((none : Option (List Nat)),
              (fs.write (tempInName t1 fn) b).write (tempOutName t2) out)
         | some processed =>
             (some processed,
              (((fs.write (tempInName t1 fn) b).write (tempOutName t2) out).remove
                  (tempInName t1 fn)).remove (tempOutName t2))) := rfl
  rw [hmatch] at step1
  have hred : process_audio fs b fn ch t1 t2 (.ok out)
      = (some out,
         (((fs.write (tempInName t1 fn) b).write (tempOutName t2) out).remove
             (tempInName t1 fn)).remove (tempOutName t2)) := step1
  refine ⟨?_, ?_, ?_, rfl, ?_⟩
  · rw [hred]
  · rw [hred]
    exact read_remove_none _ _ _ (read_remove_self _ _)
  · rw [hred]
    exact read_remove_self _ _
  · exact read_write_self fs (tempInName t1 fn) b

/-- C5 counterexample: for a 7x4 input the crop box computed by the code is
(2, 0, 6, 4) — PIL rounds the half-integer box coordinates 1.5 and 5.5
half-to-even — not the floor box (1, 0, 5, 4) the claim states; and for
an 8x5 input the rounded box does not even have width s = 5. -/
theorem C5_counterexample :
    squareCropBox 7 4 = (2, 0, 6, 4) ∧
    squareCropBox 7 4 ≠ ((7 - 4) / 2, 0, (7 + 4) / 2, 4) ∧
    cropImg ⟨8, 5, 3⟩ (squareCropBox 8 5) ≠ (⟨5, 5, 3⟩ : PImage) := by
  refine ⟨rfl, ?_, ?_⟩ <;> decide

/-- C5 amended: in square mode the crop box coordinates are the
half-offsets (w - s) / 2, (h - s) / 2, (w + s) / 2, (h + s) / 2 rounded
half-to-even (PIL box rounding) rather than floored: for h le w they
equal the floor values whenever w - h is even, the left offset always
equals the floor value or exceeds it by one, top is 0 and bottom is h;
the crop is then resized to exactly 800x800. -/
theorem C5_amended_square_crop (w h : Nat) (hle : h ≤ w) :
    ((w - h) % 2 = 0 →
        squareCropBox w h = ((w - h) / 2, 0, (w + h) / 2, h)) ∧
    ((squareCropBox w h).1 = (w - h) / 2 ∨ (squareCropBox w h).1 = (w - h) / 2 + 1) ∧
    (squareCropBox w h).2.1 = 0 ∧
    (squareCropBox w h).2.2.2 = h ∧
    (∀ c, process_image (some ⟨w, h, c⟩) "square" = some ⟨800, 800, 3, "JPEG", 60⟩) := by
  have hmin : min w h = h := min_eq_right hle
  have htop : pyRoundHalfDiv 0 = 0 := by simp [pyRoundHalfDiv]
  have hbot : pyRoundHalfDiv (h + h) = h := by
    rw [pyRoundHalfDiv_even (h + h) (by omega)]
    omega
  refine ⟨?_, ?_, ?_, ?_, fun c => rfl⟩
  · intro hpar
    have hl : pyRoundHalfDiv (w - h) = (w - h) / 2 := pyRoundHalfDiv_even _ hpar
    have hr : pyRoundHalfDiv (w + h) = (w + h) / 2 := by
      apply pyRoundHalfDiv_even
      omega
    simp [squareCropBox, hmin, hl, hr, htop, hbot]
  · rcases pyRoundHalfDiv_cases (w - h) with hc | hc <;>
      simp [squareCropBox, hmin, hc]
  · simp [squareCropBox, hmin, htop]
  · simp [squareCropBox, hmin, hbot]

/-- Witness for the amended C5 at an 8x4 input: even offset difference,
so the box is the floor box (2, 0, 6, 4), and the square output is an
800x800 3-channel JPEG at quality 60. -/
theorem C5_amended_witness :
    squareCropBox 8 4 = (2, 0, 6, 4) ∧
    process_image (some ⟨8, 4, 4⟩) "square" = some ⟨800, 800, 3, "JPEG", 60⟩ :=
  ⟨(C5_amended_square_crop 8 4 (by decide)).1 (by decide),
   (C5_amended_square_crop 8 4 (by decide)).2.2.2.2 4⟩

/-- C6: for every decodable input image, whatever its dimensions,
aspect ratio or channel count (alpha included), the square output is an
800x800 3-channel JPEG at quality 60 and the horizontal output is a
1280x720 3-channel JPEG at quality 60. -/
theorem C6_output_profile (img : PImage) :
    process_image (some img) "square" = some ⟨800, 800, 3, "JPEG", 60⟩ ∧
    process_image (some img) "horizontal" = some ⟨1280, 720, 3, "JPEG", 60⟩ :=
  ⟨rfl, rfl⟩

/-- C7: every documented failure terminates in a null result rather
than an unhandled fault: a failed decode in process_image, an external
transcoder failure in process_audio, a network or status or body
failure in upload_asset, a raise from subscripting a truthy
non-indexable assets value inside upload_asset (caught by its blanket
except), and any failure in create_collection_entry. -/
theorem C7_null_on_failure :
    (∀ mode, process_image none mode = none) ∧
    (∀ fs b fn ch t1 t2,
        (process_audio fs b fn ch t1 t2 (Except.error ())).1 = none) ∧
    upload_asset (Except.error ()) = none ∧
    (∀ fields v, jLookup "assets" fields = some v → v.truthy = true →
        pyIndex0 v = Except.error () →
        upload_asset (Except.ok (Json.obj fields)) = none) ∧
    create_collection_entry (Except.error ()) = none := by
  refine ⟨fun _ => rfl, fun _ _ _ _ _ _ => rfl, rfl, ?_, rfl⟩
  intro fields v hv htr hidx
  simp [upload_asset, upload_asset_normalize, hv, htr, hidx, Except.toOption]

/-- Witness for C7: a truthy boolean assets value makes the subscript
raise; upload_asset still returns null. -/
theorem C7_null_on_failure_witness :
    upload_asset (Except.ok (Json.obj [("assets", Json.bool true)])) = none :=
  C7_null_on_failure.2.2.2.1 [("assets", Json.bool true)] (Json.bool true) rfl rfl rfl

/-- C8: in the team-member workflow the pending draft is cleared only
when both the asset upload and the entry publish return non-null, and
whenever either call fails (returns null) the draft is left unchanged
for a retry of the whole two-call sequence. -/
theorem C8_team_clear (default_password auth_pass : String) (draft : Draft)
    (upload publish : Option Json) :
    (teamStep2 default_password auth_pass draft upload publish = none →
        upload ≠ none ∧ publish ≠ none) ∧
    (upload = none ∨ publish = none →
        teamStep2 default_password auth_pass draft upload publish = some draft) := by
  constructor
  · intro hclear
    unfold teamStep2 at hclear
    by_cases hpw : auth_pass = default_password
    · rw [if_pos hpw] at hclear
      by_cases hup : pyTruthyOpt upload = true
      · rw [if_pos hup] at hclear
        by_cases hpub : pyTruthyOpt publish = true
        · constructor
          · intro he
            rw [he] at hup
            simp [pyTruthyOpt] at hup
          · intro he
            rw [he] at hpub
            simp [pyTruthyOpt] at hpub
        · rw [if_neg hpub] at hclear
          simp at hclear
      · rw [if_neg hup] at hclear
        simp at hclear
    · rw [if_neg hpw] at hclear
      simp at hclear
  · intro hor
    unfold teamStep2
    rcases hor with he | he
    · subst he
      simp [pyTruthyOpt]
    · subst he
      simp [pyTruthyOpt]

/-- Witness for C8: with both remote calls failing, the draft is kept. -/
theorem C8_team_clear_witness :
    teamStep2 "secret" "secret" ⟨[1], "n", "e", "r", "p", "y", "s", "a"⟩ none none
      = some ⟨[1], "n", "e", "r", "p", "y", "s", "a"⟩ :=
  (C8_team_clear "secret" "secret" ⟨[1], "n", "e", "r", "p", "y", "s", "a"⟩ none none).2
    (Or.inl rfl)

/-- C9 counterexample: for the input filename a.jpg.png processed in
square mode the stem is a.jpg, so the intermediate name is a.jpg.jpg,
and str.replace rewrites every occurrence of .jpg, producing
a_sq.jpg_sq.jpg instead of the claimed stem + _sq.jpg = a.jpg_sq.jpg. -/
theorem C9_counterexample :
    imgOutputName "a.jpg.png" "square" = "a_sq.jpg_sq.jpg" ∧
    imgOutputName "a.jpg.png" "square" ≠ "a.jpg" ++ "_sq.jpg" := by
  constructor
  · rfl
  · decide

/-- C9 amended: the stored name is the splitext stem with the extension
replaced — stem + .jpg in horizontal mode and stem + .mp3 for audio in
every case; in square mode the name is stem + .jpg with every
occurrence of .jpg replaced by _sq.jpg, which equals stem + _sq.jpg
exactly when .jpg does not occur inside the stem part (hypothesis
hocc); a stem containing .jpg gets every embedded occurrence rewritten
too. -/
theorem C9_amended_names (orig : String)
    (hocc : occursBefore (".jpg").data
        (pySplitextStem orig.data ++ (".jpg").data)
        (pySplitextStem orig.data).length = false) :
    imgOutputName orig "square"
      = String.mk (pySplitextStem orig.data ++ ("_sq.jpg").data) ∧
    imgOutputName orig "horizontal"
      = String.mk (pySplitextStem orig.data ++ (".jpg").data) ∧
    audioOutputName orig
      = String.mk (pySplitextStem orig.data ++ (".mp3").data) := by
  refine ⟨?_, rfl, rfl⟩
  show (if ("square" : String) = "square" then
      String.mk (pyReplace (".jpg").data ("_sq.jpg").data
        (pySplitextStem orig.data ++ (".jpg").data))
    else String.mk (pySplitextStem orig.data ++ (".jpg").data))
    = String.mk (pySplitextStem orig.data ++ ("_sq.jpg").data)
  rw [if_pos (rfl : ("square" : String) = "square")]
  exact congrArg String.mk (pyReplace_no_occur (".jpg").data ("_sq.jpg").data
    (pySplitextStem orig.data) (by decide) hocc)

/-- Witness for the amended C9: photo.png in square mode becomes
photo_sq.jpg. -/
theorem C9_amended_witness :
    imgOutputName "photo.png" "square" = "photo_sq.jpg" :=
  ((C9_amended_names "photo.png" (by decide)).1).trans (by decide)

/-- C10: every item held in a pending batch has non-empty bytes, and a
processing result of an empty byte string is excluded from the batch
exactly as a null result is (membership is gated on truthiness of the
returned bytes): replacing empty-bytes results by null results leaves
both step-1 batches unchanged. -/
theorem C10_truthiness_gate (files : List (String × List Nat)) (mode : String)
    (procA procB : String × List Nat → Option (List Nat))
    (h : ∀ f, procA f = procB f ∨ (procA f = some [] ∧ procB f = none)) :
    (∀ it ∈ imgStep1 files mode procA, it.bytes ≠ []) ∧
    imgStep1 files mode procA = imgStep1 files mode procB ∧
    (∀ it ∈ audioStep1 files procA, it.bytes ≠ []) ∧
    audioStep1 files procA = audioStep1 files procB := by
  have hmemI : ∀ it ∈ imgStep1 files mode procA, it.bytes ≠ [] := by
    intro it hit
    rw [imgStep1, List.mem_filterMap] at hit
    obtain ⟨f, _, hsome⟩ := hit
    cases hp : procA f with
    | none => rw [hp] at hsome; simp at hsome
    | some b =>
        rw [hp] at hsome
        by_cases hb : b.isEmpty = true
        · simp [hb] at hsome
        · simp [hb] at hsome
          rw [← hsome]
          simpa using hb
  have hmemA : ∀ it ∈ audioStep1 files procA, it.bytes ≠ [] := by
    intro it hit
    rw [audioStep1, List.mem_filterMap] at hit
    obtain ⟨f, _, hsome⟩ := hit
    cases hp : procA f with
    | none => rw [hp] at hsome; simp at hsome
    | some b =>
        rw [hp] at hsome
        by_cases hb : b.isEmpty = true
        · simp [hb] at hsome
        · simp [hb] at hsome
          rw [← hsome]
          simpa using hb
  refine ⟨hmemI, ?_, hmemA, ?_⟩
  · unfold imgStep1
    apply List.filterMap_congr
    intro f _
    rcases h f with he | ⟨ha, hb⟩
    · rw [he]
    · rw [ha, hb]
      simp
  · unfold audioStep1
    apply List.filterMap_congr
    intro f _
    rcases h f with he | ⟨ha, hb⟩
    · rw [he]
    · rw [ha, hb]
      simp

/-- Witness for C10: a file whose processing yields the empty byte
string is excluded exactly as one whose processing fails. -/
theorem C10_truthiness_gate_witness :
    imgStep1 [("a.png", [9]), ("b.png", [7])] "horizontal"
        (fun f => if f.1 = "a.png" then some [] else some [5])
      = imgStep1 [("a.png", [9]), ("b.png", [7])] "horizontal"
        (fun f => if f.1 = "a.png" then none else some [5]) :=
  (C10_truthiness_gate [("a.png", [9]), ("b.png", [7])] "horizontal"
    (fun f => if f.1 = "a.png" then some [] else some [5])
    (fun f => if f.1 = "a.png" then none else some [5])
    (fun f => by
      by_cases hf : f.1 = "a.png"
      · exact Or.inr (by simp [hf])
      · exact Or.inl (by simp [hf]))).2.1

end CMS
